import Mathlib

/-!
Verification of the startup orchestrator (`hassio/bootstrap.py`).

The Python module is embedded shallowly:
* the filesystem is an association list from paths (lists of components)
  to nodes (directory, regular file with contents, socket);
* `pathlib.Path.mkdir` / `mkdir(parents=True)` / `rmdir` become explicit
  state-passing functions returning `Except`;
* each top-level function of the module (`initialize_coresys`,
  `initialize_system_data`, `migrate_system_env`, `check_environment`,
  `reg_signal`) is translated statement by statement, with log messages
  and an event trace made explicit.
-/

namespace Bootstrap

/-- A filesystem node: directory, regular file with contents, or socket. -/
inductive Node where
  | dir : Node
  | file : String → Node
  | socket : Node
deriving DecidableEq

/-- A path is its list of components from the root. -/
abbrev Path := List String

/-- The filesystem: an association list from paths to nodes.  Lookup takes
the first matching entry; every insertion site first checks the key is
absent, so no entry is ever shadowed. -/
abbrev FS := List (Path × Node)

/-- Python exception classes raised by the filesystem calls used in
`bootstrap.py` (all are `OSError` subclasses). -/
inductive PyErr where
  | fileExists : PyErr
  | fileNotFound : PyErr
  | notADirectory : PyErr
  | isADirectory : PyErr
  | osError : PyErr
deriving DecidableEq

/-- Lookup of a path in the filesystem (first matching entry). -/
def lookupFS (fs : FS) (p : Path) : Option Node :=
  match fs with
  | [] => none
  | (q, n) :: rest => if q = p then some n else lookupFS rest p

/-- `Path.is_dir()`: the root always exists as a directory; any other path
is a directory exactly if its entry is a directory. -/
def isDir (fs : FS) (p : Path) : Bool :=
  decide (p = [] ∨ lookupFS fs p = some Node.dir)

/-- `Path.mkdir()` (no `parents`): fails with `FileExistsError` if the path
exists, fails if the parent is not a directory, otherwise creates exactly
the leaf directory. -/
def mkdir (fs : FS) (p : Path) : Except PyErr FS :=
  if (lookupFS fs p).isSome then .error .fileExists
  else if isDir fs p.dropLast then .ok ((p, Node.dir) :: fs)
  else .error .fileNotFound

/-- The proper prefixes of a path, shortest first: these are the
intermediate directories `mkdir(parents=True)` may have to create. -/
def ancestors (p : Path) : List Path :=
  (List.range p.length).map (fun i => p.take i)

/-- Create every directory of the given list that is missing, in order;
fail if some entry of the list exists as a non-directory. -/
def ensureDirs (fs : FS) : List Path → Except PyErr FS
  | [] => .ok fs
  | q :: rest =>
    if isDir fs q then ensureDirs fs rest
    else if (lookupFS fs q).isSome then .error .notADirectory
    else ensureDirs ((q, Node.dir) :: fs) rest

/-- `Path.mkdir(parents=True)`: fails with `FileExistsError` if the path
itself exists, otherwise creates all missing intermediate directories and
then the leaf. -/
def mkdirParents (fs : FS) (p : Path) : Except PyErr FS :=
  if (lookupFS fs p).isSome then .error .fileExists
  else
    match ensureDirs fs (ancestors p) with
    | .error e => .error e
    | .ok fs1 => .ok ((p, Node.dir) :: fs1)

/-- Whether a directory has an entry strictly below it (so that the
non-recursive `Path.rmdir()` would fail with `OSError`/`ENOTEMPTY`). -/
def hasChild (fs : FS) (p : Path) : Bool :=
  fs.any (fun e => decide (p <+: e.1 ∧ p ≠ e.1))

/-- `Path.rmdir()`: non-recursive removal; fails on a non-empty directory,
on a non-directory, and on a missing path. -/
def rmdir (fs : FS) (p : Path) : Except PyErr FS :=
  if hasChild fs p then .error .osError
  else
    match lookupFS fs p with
    | some Node.dir => .ok (fs.filter (fun e => decide (e.1 ≠ p)))
    | some _ => .error .notADirectory
    | none => .error .fileNotFound

/-- `Path.read_text()`. -/
def readText (fs : FS) (p : Path) : Except PyErr String :=
  match lookupFS fs p with
  | some (Node.file s) => .ok s
  | some Node.dir => .error .isADirectory
  | some Node.socket => .error .osError
  | none => .error .fileNotFound

/-- The whitespace characters stripped by Python's `str.strip()`. -/
def pyIsSpace (c : Char) : Bool :=
  c = ' ' || c = '\t' || c = '\n' || c = '\r' || c = '\x0b' || c = '\x0c'

/-- Python's `str.strip()`: remove leading and trailing whitespace. -/
def pyStrip (s : String) : String :=
  String.mk (((s.data.dropWhile pyIsSpace).reverse.dropWhile pyIsSpace).reverse)

/-- The configuration object consumed by the orchestrator: a fixed set of
named filesystem paths (`coresys.config` in the source). -/
structure Config where
  path_hassio : Path
  path_homeassistant : Path
  path_ssl : Path
  path_addons_data : Path
  path_addons_local : Path
  path_addons_git : Path
  path_tmp : Path
  path_backup : Path
  path_share : Path
  path_apparmor : Path
deriving DecidableEq

/-- State threaded through `initialize_system_data`: the filesystem, the
log lines emitted so far, and the pending exception (a raised exception
stops every later statement, so it is carried along). -/
structure RunSt where
  fs : FS
  logs : List String
  err : Option PyErr
deriving DecidableEq

/-- One `if not path.is_dir(): log; path.mkdir(...)` block of
`initialize_system_data`: skipped when a pending exception exists or the
directory already exists; otherwise logs the creation message and attempts
the creation (`parents` selects `mkdir(parents=True)`). -/
def doMkdir (parents : Bool) (msg : String) (p : Path) (st : RunSt) : RunSt :=
  match st.err with
  | some _ => st
  | none =>
    if isDir st.fs p then st
    else
      match (if parents then mkdirParents st.fs p else mkdir st.fs p) with
      | .ok fs1 => ⟨fs1, st.logs ++ [msg], none⟩
      | .error e => ⟨st.fs, st.logs ++ [msg], some e⟩

/-- The nine directory-creation blocks of `initialize_system_data`, in
source order: `(parents flag, log message, path)`. -/
def sysSteps (cfg : Config) : List (Bool × String × Path) :=
  [(false, "Create Home-Assistant config folder", cfg.path_homeassistant),
   (false, "Create hassio ssl folder", cfg.path_ssl),
   (true, "Create hassio addon data folder", cfg.path_addons_data),
   (true, "Create hassio addon local repository folder", cfg.path_addons_local),
   (true, "Create hassio addon git repositories folder", cfg.path_addons_git),
   (true, "Create hassio temp folder", cfg.path_tmp),
   (false, "Create hassio backup folder", cfg.path_backup),
   (false, "Create hassio share folder", cfg.path_share),
   (false, "Create hassio apparmor folder", cfg.path_apparmor)]

/-- Run a list of creation blocks in order. -/
def runSteps (l : List (Bool × String × Path)) (st : RunSt) : RunSt :=
  l.foldl (fun st s => doMkdir s.1 s.2.1 s.2.2 st) st

/-- `initialize_system_data(coresys)`: run the nine creation blocks in
order against the filesystem. -/
def initialize_system_data (cfg : Config) (fs : FS) : RunSt :=
  runSteps (sysSteps cfg) ⟨fs, [], none⟩

/-- The enumerated list of required directories (§3 of the spec), in the
order `initialize_system_data` ensures them. -/
def requiredPaths (cfg : Config) : List Path :=
  [cfg.path_homeassistant, cfg.path_ssl, cfg.path_addons_data,
   cfg.path_addons_local, cfg.path_addons_git, cfg.path_tmp,
   cfg.path_backup, cfg.path_share, cfg.path_apparmor]

/-- The required directories created with `mkdir(parents=True)` (nested
paths: add-on data, add-on local repo, add-on git repos, tmp). -/
def nestedPaths (cfg : Config) : List Path :=
  [cfg.path_addons_data, cfg.path_addons_local, cfg.path_addons_git,
   cfg.path_tmp]

/-- `migrate_system_env(coresys)`: if the obsolete `addons/build` directory
under the hassio data root exists, attempt a non-recursive removal; an
`OSError` is caught and downgraded to a warning.  Returns the filesystem
and the warnings logged. -/
def migrate_system_env (cfg : Config) (fs : FS) : FS × List String :=
  let old_build : Path := cfg.path_hassio ++ ["addons", "build"]
  if isDir fs old_build then
    match rmdir fs old_build with
    | .ok fs1 => (fs1, [])
    | .error _ => (fs, ["Can't cleanup old addons build dir."])
  else (fs, [])

/-- The process environment seen by `check_environment`: the environment
variables, the result of `SOCKET_DOCKER.is_socket()`, and the executables
resolvable by `shutil.which`. -/
structure Env where
  vars : List (String × String)
  socketIsSocket : Bool
  execs : List String
deriving DecidableEq

/-- Association-list lookup for environment variables. -/
def lookupAssoc : List (String × String) → String → Option String
  | [], _ => none
  | (k1, v) :: rest, k => if k1 = k then some v else lookupAssoc rest k

/-- `os.environ[key]` as a lookup. -/
def lookupVar (env : Env) (k : String) : Option String :=
  lookupAssoc env.vars k

def ENV_SHARE : String := "SUPERVISOR_SHARE"
def ENV_NAME : String := "SUPERVISOR_NAME"
def ENV_REPO : String := "HOMEASSISTANT_REPOSITORY"

/-- `shutil.which(prog)` as a membership test. -/
def which (env : Env) (prog : String) : Bool :=
  env.execs.contains prog

/-- `check_environment()`: the `for key in (ENV_SHARE, ENV_NAME, ENV_REPO)`
loop with its early `return False`, then the docker-socket check, then the
two executable checks, each returning `False` immediately on failure with
one fatal log line.  Returns the boolean result and the fatal log lines
emitted. -/
def check_environment (env : Env) : Bool × List String :=
  if (lookupVar env ENV_SHARE).isNone then
    (false, ["Can't find " ++ ENV_SHARE ++ " in env!"])
  else if (lookupVar env ENV_NAME).isNone then
    (false, ["Can't find " ++ ENV_NAME ++ " in env!"])
  else if (lookupVar env ENV_REPO).isNone then
    (false, ["Can't find " ++ ENV_REPO ++ " in env!"])
  else if !env.socketIsSocket then
    (false, ["Can't find docker socket!"])
  else if !(which env "socat") then
    (false, ["Can't find socat program!"])
  else if !(which env "gdbus") then
    (false, ["Can't find gdbus program!"])
  else (true, [])

/-- The three signals `reg_signal` binds. -/
inductive Sig where
  | SIGTERM : Sig
  | SIGHUP : Sig
  | SIGINT : Sig
deriving DecidableEq

def sigName : Sig → String
  | .SIGTERM => "SIGTERM"
  | .SIGHUP => "SIGHUP"
  | .SIGINT => "SIGINT"

/-- Outcome of `reg_signal`: which signal bindings were attempted, which
succeeded, and the warnings logged for the ones that failed. -/
structure SigResult where
  attempted : List Sig
  bound : List Sig
  warnings : List String
deriving DecidableEq

/-- One `try: loop.add_signal_handler(...) except (ValueError, RuntimeError):
log warning` block; `ok` is whether the bind succeeds in the current
context. -/
def tryBind (ok : Bool) (s : Sig) : SigResult :=
  if ok then ⟨[s], [s], []⟩
  else ⟨[s], [], ["Could not bind to " ++ sigName s]⟩

/-- `reg_signal(loop)`: the three independent try/except blocks, in source
order (SIGTERM, SIGHUP, SIGINT); `bind` tells which signals the current
platform/context can bind. -/
def reg_signal (bind : Sig → Bool) : SigResult :=
  let r1 := tryBind (bind .SIGTERM) .SIGTERM
  let r2 := tryBind (bind .SIGHUP) .SIGHUP
  let r3 := tryBind (bind .SIGINT) .SIGINT
  ⟨r1.attempted ++ r2.attempted ++ r3.attempted,
   r1.bound ++ r2.bound ++ r3.bound,
   r1.warnings ++ r2.warnings ++ r3.warnings⟩

/-- An opaque subsystem handle; the constructor argument records which
collaborator class produced it. -/
structure Handle where
  cls : String
deriving DecidableEq

/-- The Shared Context (`CoreSys`): the configuration, one slot per
subsystem, and the optional machine identifier. -/
structure CoreSys where
  config : Config
  core : Option Handle := none
  updater : Option Handle := none
  api : Option Handle := none
  supervisor : Option Handle := none
  homeassistant : Option Handle := none
  addons : Option Handle := none
  snapshots : Option Handle := none
  host : Option Handle := none
  tasks : Option Handle := none
  services : Option Handle := none
  discovery : Option Handle := none
  dbus : Option Handle := none
  hassos : Option Handle := none
  machine_id : Option String := none
deriving DecidableEq

/-- The declared subsystem names, in the order `initialize_coresys`
assigns them. -/
def subsystemNames : List String :=
  ["core", "updater", "api", "supervisor", "homeassistant", "addons",
   "snapshots", "host", "tasks", "services", "discovery", "dbus", "hassos"]

/-- Observable bootstrap events, used to state ordering properties. -/
inductive Event where
  | construct : String → Event
  | bootstrapFS : Event
  | captureHostId : Event
deriving DecidableEq

/-- The well-known machine-identifier file `/etc/machine-id`. -/
def MACHINE_ID : Path := ["etc", "machine-id"]

/-- The CoreSys as it stands after the thirteen subsystem constructor
assignments of `initialize_coresys`. -/
def coreSysAll (cfg : Config) : CoreSys :=
  { config := cfg,
    core := some ⟨"HassIO"⟩, updater := some ⟨"Updater"⟩,
    api := some ⟨"RestAPI"⟩, supervisor := some ⟨"Supervisor"⟩,
    homeassistant := some ⟨"HomeAssistant"⟩, addons := some ⟨"AddonManager"⟩,
    snapshots := some ⟨"SnapshotManager"⟩, host := some ⟨"HostManager"⟩,
    tasks := some ⟨"Tasks"⟩, services := some ⟨"ServiceManager"⟩,
    discovery := some ⟨"Discovery"⟩, dbus := some ⟨"DBusManager"⟩,
    hassos := some ⟨"HassOS"⟩ }

/-- The event trace of a successful `initialize_coresys` run: the thirteen
constructors in declaration order, then the filesystem bootstrap, then the
machine-id capture step. -/
def bootEvents : List Event :=
  [Event.construct "core", Event.construct "updater", Event.construct "api",
   Event.construct "supervisor", Event.construct "homeassistant",
   Event.construct "addons", Event.construct "snapshots",
   Event.construct "host", Event.construct "tasks",
   Event.construct "services", Event.construct "discovery",
   Event.construct "dbus", Event.construct "hassos",
   Event.bootstrapFS, Event.captureHostId]

/-- `initialize_coresys(loop)`: construct the Shared Context and all
thirteen subsystems, run `initialize_system_data`, then, if
`MACHINE_ID.exists()`, read and strip its contents into `machine_id`.
Returns the wired context, the final filesystem, the creation log lines
and the event trace, or the propagated exception. -/
def initialize_coresys (cfg : Config) (fs : FS) :
    Except PyErr (CoreSys × FS × List String × List Event) :=
  let cs := coreSysAll cfg
  let st := initialize_system_data cfg fs
  match st.err with
  | some e => .error e
  | none =>
    if (lookupFS st.fs MACHINE_ID).isSome then
      match readText st.fs MACHINE_ID with
      | .error e => .error e
      | .ok s =>
        .ok ({ cs with machine_id := some (pyStrip s) }, st.fs, st.logs, bootEvents)
    else .ok (cs, st.fs, st.logs, bootEvents)

/-! ### Basic lemmas about the filesystem model -/

theorem lookupFS_cons {q : Path} {n : Node} {fs : FS} {p : Path} :
    lookupFS ((q, n) :: fs) p = if q = p then some n else lookupFS fs p := rfl

theorem isDir_iff {fs : FS} {p : Path} :
    isDir fs p = true ↔ p = [] ∨ lookupFS fs p = some Node.dir := by
  simp [isDir]

theorem isDir_insert_self {fs : FS} {p : Path} :
    isDir ((p, Node.dir) :: fs) p = true := by
  refine isDir_iff.mpr (Or.inr ?_)
  rw [lookupFS_cons, if_pos rfl]

theorem isDir_insert_dir {fs : FS} {p q : Path} (h : isDir fs q = true) :
    isDir ((p, Node.dir) :: fs) q = true := by
  rcases isDir_iff.mp h with h1 | h1
  · exact isDir_iff.mpr (Or.inl h1)
  · refine isDir_iff.mpr (Or.inr ?_)
    rw [lookupFS_cons]
    split <;> simp [h1]

theorem isDir_cons_elim {fs : FS} {p q : Path} {n : Node}
    (h : isDir ((p, n) :: fs) q = true) : isDir fs q = true ∨ q = p := by
  rcases isDir_iff.mp h with h1 | h1
  · exact Or.inl (isDir_iff.mpr (Or.inl h1))
  · rw [lookupFS_cons] at h1
    by_cases hpq : p = q
    · exact Or.inr hpq.symm
    · rw [if_neg hpq] at h1
      exact Or.inl (isDir_iff.mpr (Or.inr h1))

theorem lookupFS_insert_preserve {fs : FS} {p q : Path} {n : Node} {v : Node}
    (hp : lookupFS fs p = none) (hq : lookupFS fs q = some v) :
    lookupFS ((p, n) :: fs) q = some v := by
  rw [lookupFS_cons]
  split
  · rename_i hpq
    rw [hpq, hq] at hp
    cases hp
  · exact hq

/-! ### Lemmas about `mkdir` -/

theorem mkdir_ok {fs : FS} {p : Path} {fs1 : FS} (h : mkdir fs p = .ok fs1) :
    fs1 = (p, Node.dir) :: fs ∧ lookupFS fs p = none := by
  unfold mkdir at h
  split at h
  · cases h
  · rename_i hnone
    split at h
    · cases h
      exact ⟨rfl, by simpa using hnone⟩
    · cases h

theorem mkdir_ok_isDir {fs : FS} {p : Path} {fs1 : FS}
    (h : mkdir fs p = .ok fs1) : isDir fs1 p = true := by
  rw [(mkdir_ok h).1]
  exact isDir_insert_self

theorem mkdir_ok_mono {fs : FS} {p q : Path} {fs1 : FS}
    (h : mkdir fs p = .ok fs1) (hq : isDir fs q = true) : isDir fs1 q = true := by
  rw [(mkdir_ok h).1]
  exact isDir_insert_dir hq

theorem mkdir_ok_lookup {fs : FS} {p q : Path} {fs1 : FS} {v : Node}
    (h : mkdir fs p = .ok fs1) (hq : lookupFS fs q = some v) :
    lookupFS fs1 q = some v := by
  rw [(mkdir_ok h).1]
  exact lookupFS_insert_preserve (mkdir_ok h).2 hq

theorem mkdir_ok_frame {fs : FS} {p q : Path} {fs1 : FS}
    (h : mkdir fs p = .ok fs1) (hq : isDir fs1 q = true) :
    isDir fs q = true ∨ q = p := by
  rw [(mkdir_ok h).1] at hq
  exact isDir_cons_elim hq

/-! ### Lemmas about `ensureDirs` and `mkdirParents` -/

theorem ensureDirs_mono {l : List Path} :
    ∀ {fs fs1 : FS}, ensureDirs fs l = .ok fs1 →
      ∀ {q : Path}, isDir fs q = true → isDir fs1 q = true := by
  induction l with
  | nil =>
    intro fs fs1 h q hq
    unfold ensureDirs at h
    cases h
    exact hq
  | cons a rest ih =>
    intro fs fs1 h q hq
    unfold ensureDirs at h
    split at h
    · exact ih h hq
    · split at h
      · cases h
      · exact ih h (isDir_insert_dir hq)

theorem ensureDirs_lookup {l : List Path} :
    ∀ {fs fs1 : FS}, ensureDirs fs l = .ok fs1 →
      ∀ {q : Path} {v : Node}, lookupFS fs q = some v → lookupFS fs1 q = some v := by
  induction l with
  | nil =>
    intro fs fs1 h q v hq
    unfold ensureDirs at h
    cases h
    exact hq
  | cons a rest ih =>
    intro fs fs1 h q v hq
    unfold ensureDirs at h
    split at h
    · exact ih h hq
    · split at h
      · cases h
      · rename_i hnone
        exact ih h (lookupFS_insert_preserve (by simpa using hnone) hq)

theorem ensureDirs_all {l : List Path} :
    ∀ {fs fs1 : FS}, ensureDirs fs l = .ok fs1 →
      ∀ q ∈ l, isDir fs1 q = true := by
  induction l with
  | nil =>
    intro fs fs1 _ q hq
    cases hq
  | cons a rest ih =>
    intro fs fs1 h q hq
    unfold ensureDirs at h
    rcases List.mem_cons.mp hq with rfl | hq1
    · split at h
      · rename_i hd
        exact ensureDirs_mono h hd
      · split at h
        · cases h
        · exact ensureDirs_mono h isDir_insert_self
    · split at h
      · exact ih h q hq1
      · split at h
        · cases h
        · exact ih h q hq1

theorem ensureDirs_frame {l : List Path} :
    ∀ {fs fs1 : FS}, ensureDirs fs l = .ok fs1 →
      ∀ {q : Path}, isDir fs1 q = true → isDir fs q = true ∨ q ∈ l := by
  induction l with
  | nil =>
    intro fs fs1 h q hq
    unfold ensureDirs at h
    cases h
    exact Or.inl hq
  | cons a rest ih =>
    intro fs fs1 h q hq
    unfold ensureDirs at h
    split at h
    · rcases ih h hq with h1 | h1
      · exact Or.inl h1
      · exact Or.inr (List.mem_cons_of_mem a h1)
    · split at h
      · cases h
      · rcases ih h hq with h1 | h1
        · rcases isDir_cons_elim h1 with h2 | h2
          · exact Or.inl h2
          · exact Or.inr (h2 ▸ List.mem_cons_self a rest)
        · exact Or.inr (List.mem_cons_of_mem a h1)

theorem ensureDirs_lookup_none {l : List Path} :
    ∀ {fs fs1 : FS} {p : Path}, ensureDirs fs l = .ok fs1 →
      (∀ a ∈ l, a ≠ p) → lookupFS fs p = none → lookupFS fs1 p = none := by
  induction l with
  | nil =>
    intro fs fs1 p h _ hp
    unfold ensureDirs at h
    cases h
    exact hp
  | cons a rest ih =>
    intro fs fs1 p h hne hp
    unfold ensureDirs at h
    split at h
    · exact ih h (fun b hb => hne b (List.mem_cons_of_mem a hb)) hp
    · split at h
      · cases h
      · refine ih h (fun b hb => hne b (List.mem_cons_of_mem a hb)) ?_
        rw [lookupFS_cons, if_neg (hne a (List.mem_cons_self a rest)), hp]

theorem ancestors_ne {p q : Path} (h : q ∈ ancestors p) : q ≠ p := by
  unfold ancestors at h
  rcases List.mem_map.mp h with ⟨i, hi, rfl⟩
  rw [List.mem_range] at hi
  intro hcon
  have : (p.take i).length = p.length := by rw [hcon]
  rw [List.length_take] at this
  omega

theorem ancestors_below {p q : Path} (h : q ∈ ancestors p) : q <+: p := by
  unfold ancestors at h
  rcases List.mem_map.mp h with ⟨i, _, rfl⟩
  exact List.take_prefix i p

theorem mkdirParents_ok {fs : FS} {p : Path} {fs1 : FS}
    (h : mkdirParents fs p = .ok fs1) :
    lookupFS fs p = none ∧
      ∃ fs2, ensureDirs fs (ancestors p) = .ok fs2 ∧ fs1 = (p, Node.dir) :: fs2 := by
  unfold mkdirParents at h
  split at h
  · cases h
  · rename_i hnone
    split at h
    · cases h
    · rename_i fs2 h2
      cases h
      exact ⟨by simpa using hnone, fs2, h2, rfl⟩

theorem mkdirParents_ok_isDir {fs : FS} {p : Path} {fs1 : FS}
    (h : mkdirParents fs p = .ok fs1) : isDir fs1 p = true := by
  obtain ⟨-, fs2, -, rfl⟩ := mkdirParents_ok h
  exact isDir_insert_self

theorem mkdirParents_ok_mono {fs : FS} {p q : Path} {fs1 : FS}
    (h : mkdirParents fs p = .ok fs1) (hq : isDir fs q = true) :
    isDir fs1 q = true := by
  obtain ⟨-, fs2, h2, rfl⟩ := mkdirParents_ok h
  exact isDir_insert_dir (ensureDirs_mono h2 hq)

theorem mkdirParents_ok_lookup {fs : FS} {p q : Path} {fs1 : FS} {v : Node}
    (h : mkdirParents fs p = .ok fs1) (hq : lookupFS fs q = some v) :
    lookupFS fs1 q = some v := by
  obtain ⟨hp, fs2, h2, rfl⟩ := mkdirParents_ok h
  refine lookupFS_insert_preserve ?_ (ensureDirs_lookup h2 hq)
  exact ensureDirs_lookup_none h2 (fun a ha => ancestors_ne ha) hp

theorem mkdirParents_ok_frame {fs : FS} {p q : Path} {fs1 : FS}
    (h : mkdirParents fs p = .ok fs1) (hq : isDir fs1 q = true) :
    isDir fs q = true ∨ q <+: p := by
  obtain ⟨-, fs2, h2, rfl⟩ := mkdirParents_ok h
  rcases isDir_cons_elim hq with h1 | h1
  · rcases ensureDirs_frame h2 h1 with h3 | h3
    · exact Or.inl h3
    · exact Or.inr (ancestors_below h3)
  · exact Or.inr (h1 ▸ List.prefix_refl p)

/-! ### Lemmas about `doMkdir` and `runSteps` -/

theorem doMkdir_err_some {b : Bool} {m : String} {p : Path} {st : RunSt}
    (h : st.err.isSome) : doMkdir b m p st = st := by
  unfold doMkdir
  split
  · rfl
  · rename_i herr
    rw [herr] at h
    cases h

theorem doMkdir_skip {b : Bool} {m : String} {p : Path} {st : RunSt}
    (he : st.err = none) (hd : isDir st.fs p = true) : doMkdir b m p st = st := by
  unfold doMkdir
  rw [he]
  simp [hd]

theorem doMkdir_mono {b : Bool} {m : String} {p q : Path} {st : RunSt}
    (hq : isDir st.fs q = true) : isDir (doMkdir b m p st).fs q = true := by
  unfold doMkdir
  split
  · exact hq
  · split
    · exact hq
    · split
      · rename_i fs1 hok
        cases b
        · exact mkdir_ok_mono (by simpa using hok) hq
        · exact mkdirParents_ok_mono (by simpa using hok) hq
      · exact hq

theorem doMkdir_lookup {b : Bool} {m : String} {p q : Path} {st : RunSt} {v : Node}
    (hq : lookupFS st.fs q = some v) : lookupFS (doMkdir b m p st).fs q = some v := by
  unfold doMkdir
  split
  · exact hq
  · split
    · exact hq
    · split
      · rename_i fs1 hok
        cases b
        · exact mkdir_ok_lookup (by simpa using hok) hq
        · exact mkdirParents_ok_lookup (by simpa using hok) hq
      · exact hq

theorem doMkdir_err_none {b : Bool} {m : String} {p : Path} {st : RunSt}
    (h : (doMkdir b m p st).err = none) : st.err = none := by
  cases herr : st.err with
  | none => rfl
  | some e =>
    rw [doMkdir_err_some (by rw [herr]; rfl)] at h
    rw [herr] at h
    cases h

theorem doMkdir_ok_isDir {b : Bool} {m : String} {p : Path} {st : RunSt}
    (h : (doMkdir b m p st).err = none) : isDir (doMkdir b m p st).fs p = true := by
  have he : st.err = none := doMkdir_err_none h
  unfold doMkdir at h ⊢
  rw [he] at h ⊢
  by_cases hd : isDir st.fs p = true
  · simp [hd]
  · simp only [hd, if_false, Bool.false_eq_true] at h ⊢
    split at h
    · rename_i fs1 hok
      cases b
      · exact mkdir_ok_isDir (by simpa using hok)
      · exact mkdirParents_ok_isDir (by simpa using hok)
    · cases h

theorem doMkdir_frame {b : Bool} {m : String} {p q : Path} {st : RunSt}
    (hq : isDir (doMkdir b m p st).fs q = true) :
    isDir st.fs q = true ∨ q = p ∨ (b = true ∧ q <+: p) := by
  unfold doMkdir at hq
  split at hq
  · exact Or.inl hq
  · split at hq
    · exact Or.inl hq
    · split at hq
      · rename_i fs1 hok
        cases b
        · rcases mkdir_ok_frame (by simpa using hok) hq with h1 | h1
          · exact Or.inl h1
          · exact Or.inr (Or.inl h1)
        · rcases mkdirParents_ok_frame (by simpa using hok) hq with h1 | h1
          · exact Or.inl h1
          · exact Or.inr (Or.inr ⟨rfl, h1⟩)
      · exact Or.inl hq

theorem runSteps_nil {st : RunSt} : runSteps [] st = st := rfl

theorem runSteps_cons {s : Bool × String × Path} {l : List (Bool × String × Path)}
    {st : RunSt} : runSteps (s :: l) st = runSteps l (doMkdir s.1 s.2.1 s.2.2 st) := rfl

theorem runSteps_err_some {l : List (Bool × String × Path)} :
    ∀ {st : RunSt}, st.err.isSome → runSteps l st = st := by
  induction l with
  | nil => intro st _; rfl
  | cons s rest ih =>
    intro st h
    rw [runSteps_cons, doMkdir_err_some h, ih h]

theorem runSteps_mono {l : List (Bool × String × Path)} :
    ∀ {st : RunSt} {q : Path}, isDir st.fs q = true →
      isDir (runSteps l st).fs q = true := by
  induction l with
  | nil => intro st q h; exact h
  | cons s rest ih =>
    intro st q h
    rw [runSteps_cons]
    exact ih (doMkdir_mono h)

theorem runSteps_lookup {l : List (Bool × String × Path)} :
    ∀ {st : RunSt} {q : Path} {v : Node}, lookupFS st.fs q = some v →
      lookupFS (runSteps l st).fs q = some v := by
  induction l with
  | nil => intro st q v h; exact h
  | cons s rest ih =>
    intro st q v h
    rw [runSteps_cons]
    exact ih (doMkdir_lookup h)

theorem runSteps_err_none {l : List (Bool × String × Path)} :
    ∀ {st : RunSt}, (runSteps l st).err = none → st.err = none := by
  induction l with
  | nil => intro st h; exact h
  | cons s rest ih =>
    intro st h
    rw [runSteps_cons] at h
    exact doMkdir_err_none (ih h)

theorem runSteps_all {l : List (Bool × String × Path)} :
    ∀ {st : RunSt}, (runSteps l st).err = none →
      ∀ s ∈ l, isDir (runSteps l st).fs s.2.2 = true := by
  induction l with
  | nil => intro st _ s hs; cases hs
  | cons a rest ih =>
    intro st h s hs
    rw [runSteps_cons] at h ⊢
    rcases List.mem_cons.mp hs with rfl | hs1
    · have h1 : (doMkdir s.1 s.2.1 s.2.2 st).err = none := runSteps_err_none h
      exact runSteps_mono (doMkdir_ok_isDir h1)
    · exact ih h s hs1

theorem runSteps_frame {l : List (Bool × String × Path)} :
    ∀ {st : RunSt} {q : Path}, isDir (runSteps l st).fs q = true →
      isDir st.fs q = true ∨
        ∃ s ∈ l, q = s.2.2 ∨ (s.1 = true ∧ q <+: s.2.2) := by
  induction l with
  | nil => intro st q h; exact Or.inl h
  | cons a rest ih =>
    intro st q h
    rw [runSteps_cons] at h
    rcases ih h with h1 | ⟨s, hs, h1⟩
    · rcases doMkdir_frame h1 with h2 | h2 | h2
      · exact Or.inl h2
      · exact Or.inr ⟨a, List.mem_cons_self a rest, Or.inl h2⟩
      · exact Or.inr ⟨a, List.mem_cons_self a rest, Or.inr h2⟩
    · exact Or.inr ⟨s, List.mem_cons_of_mem a hs, h1⟩

theorem runSteps_skip_all {l : List (Bool × String × Path)} :
    ∀ {st : RunSt}, st.err = none → (∀ s ∈ l, isDir st.fs s.2.2 = true) →
      runSteps l st = st := by
  induction l with
  | nil => intro st _ _; rfl
  | cons a rest ih =>
    intro st he hall
    rw [runSteps_cons, doMkdir_skip he (hall a (List.mem_cons_self a rest))]
    exact ih he (fun s hs => hall s (List.mem_cons_of_mem a hs))

/-! ### Concrete fixtures used by witnesses and counterexamples -/

/-- A concrete configuration: the add-on paths are nested, the others are
top-level. -/
def cfgA : Config :=
  ⟨["hassio"], ["homeassistant"], ["ssl"], ["addons", "data"],
   ["addons", "local"], ["addons", "git"], ["tmp"], ["backup"], ["share"],
   ["apparmor"]⟩

/-- A filesystem in which the required ssl path is occupied by a regular
file. -/
def fsSslFile : FS := [(["ssl"], Node.file "oops")]

/-- The nine required paths are exactly the paths of the nine creation
blocks, in order. -/
theorem requiredPaths_eq (cfg : Config) :
    requiredPaths cfg = (sysSteps cfg).map (fun s => s.2.2) := rfl

/-- The nested paths are exactly the paths of the blocks that use
`mkdir(parents=True)`. -/
theorem nestedPaths_eq (cfg : Config) :
    nestedPaths cfg = ((sysSteps cfg).filter (fun s => s.1)).map (fun s => s.2.2) := rfl

/-! ### Claim theorems -/

/-- Claim C8: for every required directory in the enumerated list, the
filesystem bootstrapper ensures the directory exists (after a run without
error every required path is a directory), and it creates intermediate
parent directories only where the path is nested: any directory present
after a run was already present, or is one of the required paths, or is an
ancestor of one of the four nested paths (add-on data, add-on local repo,
add-on git repos, tmp). -/
theorem initialize_system_data_ensures_dirs (cfg : Config) (fs : FS) :
    ((initialize_system_data cfg fs).err = none →
      ∀ p ∈ requiredPaths cfg, isDir (initialize_system_data cfg fs).fs p = true) ∧
    (∀ p, isDir (initialize_system_data cfg fs).fs p = true →
      isDir fs p = true ∨ p ∈ requiredPaths cfg ∨ ∃ q ∈ nestedPaths cfg, p <+: q) := by
  constructor
  · intro herr p hp
    rw [requiredPaths_eq] at hp
    rcases List.mem_map.mp hp with ⟨s, hs, rfl⟩
    exact runSteps_all herr s hs
  · intro p hp
    rcases runSteps_frame hp with h1 | ⟨s, hs, h1 | h1⟩
    · exact Or.inl h1
    · refine Or.inr (Or.inl ?_)
      rw [requiredPaths_eq]
      exact List.mem_map.mpr ⟨s, hs, h1.symm⟩
    · refine Or.inr (Or.inr ⟨s.2.2, ?_, h1.2⟩)
      rw [nestedPaths_eq]
      exact List.mem_map.mpr ⟨s, List.mem_filter.mpr ⟨hs, h1.1⟩, rfl⟩

/-- Claim C8 witness: at the concrete configuration and the empty
filesystem the run succeeds and the nested add-on data directory exists
afterwards. -/
theorem initialize_system_data_ensures_dirs_witness :
    (initialize_system_data cfgA []).err = none ∧
    cfgA.path_addons_data ∈ requiredPaths cfgA ∧
    isDir (initialize_system_data cfgA []).fs cfgA.path_addons_data = true :=
  ⟨by decide, by decide,
    (initialize_system_data_ensures_dirs cfgA []).1 (by decide)
      cfgA.path_addons_data (by decide)⟩

/-- Claim C3 (amended) : if a run of the filesystem bootstrapper completes
without error, a second run against the same configuration returns the
same filesystem, logs nothing and raises no error; and every entry present
before a run is still present, unchanged, afterwards. -/
theorem initialize_system_data_idempotent (cfg : Config) (fs : FS)
    (h : (initialize_system_data cfg fs).err = none) :
    initialize_system_data cfg (initialize_system_data cfg fs).fs =
      ⟨(initialize_system_data cfg fs).fs, [], none⟩ ∧
    ∀ q v, lookupFS fs q = some v →
      lookupFS (initialize_system_data cfg fs).fs q = some v := by
  constructor
  · unfold initialize_system_data
    refine runSteps_skip_all rfl ?_
    intro s hs
    exact runSteps_all h s hs
  · intro q v hq
    exact runSteps_lookup hq

/-- Claim C3 witness: at the concrete configuration and the empty
filesystem the first run succeeds and the second run is the identity with
no log and no error. -/
theorem initialize_system_data_idempotent_witness :
    (initialize_system_data cfgA []).err = none ∧
    initialize_system_data cfgA (initialize_system_data cfgA []).fs =
      ⟨(initialize_system_data cfgA []).fs, [], none⟩ :=
  ⟨by decide, (initialize_system_data_idempotent cfgA [] (by decide)).1⟩

/-- Claim C3 counterexample: the claim quantifies over every starting
filesystem state, but when a required path is occupied by a regular file
the first run raises `FileExistsError` and so does the second run — the
second run does not run without error. -/
theorem initialize_system_data_second_run_error_example :
    (initialize_system_data cfgA fsSslFile).err = some PyErr.fileExists ∧
    (initialize_system_data cfgA
        (initialize_system_data cfgA fsSslFile).fs).err =
      some PyErr.fileExists := by decide

/-- Claim C10: a required path occupied by a non-directory makes the
bootstrapper abort with an exception; concretely, with the ssl path
occupied by a regular file the run raises `FileExistsError`, the directory
created before the failing block exists, and none of the directories after
the failing block was created. -/
theorem initialize_system_data_nondir_aborts :
    (∀ (cfg : Config) (fs : FS) (p : Path) (n : Node),
      p ∈ requiredPaths cfg → p ≠ [] → lookupFS fs p = some n →
      n ≠ Node.dir → (initialize_system_data cfg fs).err ≠ none) ∧
    ((initialize_system_data cfgA fsSslFile).err = some PyErr.fileExists ∧
     isDir (initialize_system_data cfgA fsSslFile).fs cfgA.path_homeassistant = true ∧
     ∀ p ∈ [cfgA.path_addons_data, cfgA.path_addons_local, cfgA.path_addons_git,
            cfgA.path_tmp, cfgA.path_backup, cfgA.path_share, cfgA.path_apparmor],
       isDir (initialize_system_data cfgA fsSslFile).fs p = false) := by
  constructor
  · intro cfg fs p n hp hne hlook hnd herr
    rw [requiredPaths_eq] at hp
    rcases List.mem_map.mp hp with ⟨s, hs, rfl⟩
    have hdir : isDir (initialize_system_data cfg fs).fs s.2.2 = true :=
      runSteps_all herr s hs
    have hpres : lookupFS (initialize_system_data cfg fs).fs s.2.2 = some n :=
      runSteps_lookup hlook
    rcases isDir_iff.mp hdir with h1 | h1
    · exact hne h1
    · rw [hpres] at h1
      exact hnd (Option.some.inj h1)
  · decide

/-- Claim C10 witness: the abort property applied at the concrete
configuration with the ssl path occupied by a file. -/
theorem initialize_system_data_nondir_aborts_witness :
    (["ssl"] : Path) ∈ requiredPaths cfgA ∧
    (initialize_system_data cfgA fsSslFile).err ≠ none :=
  ⟨by decide,
    initialize_system_data_nondir_aborts.1 cfgA fsSslFile ["ssl"]
      (Node.file "oops") (by decide) (by decide) (by decide) (by decide)⟩

/-- A filesystem with a non-empty legacy `addons/build` directory under the
hassio data root of `cfgA`. -/
def fsOldBuild : FS :=
  [(["hassio", "addons", "build"], Node.dir),
   (["hassio", "addons", "build", "x"], Node.file "f")]

/-- Claim C6: legacy cleanup never blocks startup — if the obsolete legacy
directory does not exist the migrator performs no removal and no logging,
and if it exists but its removal fails the failure is caught, one warning
is logged, the filesystem is unchanged and the migrator returns
normally. -/
theorem migrate_system_env_tolerant (cfg : Config) (fs : FS) :
    (isDir fs (cfg.path_hassio ++ ["addons", "build"]) = false →
      migrate_system_env cfg fs = (fs, [])) ∧
    (∀ e, isDir fs (cfg.path_hassio ++ ["addons", "build"]) = true →
      rmdir fs (cfg.path_hassio ++ ["addons", "build"]) = .error e →
      migrate_system_env cfg fs = (fs, ["Can't cleanup old addons build dir."])) := by
  constructor
  · intro h
    simp [migrate_system_env, h]
  · intro e h1 h2
    simp [migrate_system_env, h1, h2]

/-- Claim C6 witness: on the empty filesystem the migrator is silent, and
on a filesystem whose legacy directory cannot be removed it warns and
leaves the state unchanged. -/
theorem migrate_system_env_tolerant_witness :
    migrate_system_env cfgA [] = ([], []) ∧
    migrate_system_env cfgA fsOldBuild =
      (fsOldBuild, ["Can't cleanup old addons build dir."]) :=
  ⟨(migrate_system_env_tolerant cfgA []).1 (by decide),
   (migrate_system_env_tolerant cfgA fsOldBuild).2 PyErr.osError (by decide)
     (by rfl)⟩

/-- Claim C9: the migrator uses non-recursive removal — if the legacy
directory exists and has an entry strictly below it, the removal fails,
one warning is logged and the filesystem (the directory and all its
contents) is returned unchanged. -/
theorem migrate_system_env_nonrecursive (cfg : Config) (fs : FS)
    (hdir : isDir fs (cfg.path_hassio ++ ["addons", "build"]) = true)
    (hchild : hasChild fs (cfg.path_hassio ++ ["addons", "build"]) = true) :
    migrate_system_env cfg fs = (fs, ["Can't cleanup old addons build dir."]) := by
  have h2 : rmdir fs (cfg.path_hassio ++ ["addons", "build"]) =
      .error PyErr.osError := by
    simp [rmdir, hchild]
  simp [migrate_system_env, hdir, h2]

/-- Claim C9 witness: the non-recursive-removal property applied to the
concrete non-empty legacy directory. -/
theorem migrate_system_env_nonrecursive_witness :
    hasChild fsOldBuild (cfgA.path_hassio ++ ["addons", "build"]) = true ∧
    migrate_system_env cfgA fsOldBuild =
      (fsOldBuild, ["Can't cleanup old addons build dir."]) :=
  ⟨by decide, migrate_system_env_nonrecursive cfgA fsOldBuild (by decide) (by decide)⟩

/-- Claim C5: signal binding degrades per signal — for every combination of
per-signal binding failures, all three bindings are attempted, a signal is
bound exactly if its binding succeeds, the warning for a signal is logged
exactly if its binding fails, and `reg_signal` returns normally (it is a
total function of the binding outcomes). -/
theorem reg_signal_degrades_per_signal (bind : Sig → Bool) :
    (reg_signal bind).attempted = [Sig.SIGTERM, Sig.SIGHUP, Sig.SIGINT] ∧
    (∀ s, s ∈ (reg_signal bind).bound ↔ bind s = true) ∧
    (∀ s, ("Could not bind to " ++ sigName s) ∈ (reg_signal bind).warnings ↔
      bind s = false) := by
  cases h1 : bind .SIGTERM <;> cases h2 : bind .SIGHUP <;> cases h3 : bind .SIGINT <;>
    refine ⟨by simp [reg_signal, tryBind, h1, h2, h3], fun s => ?_, fun s => ?_⟩ <;>
      cases s <;> simp [reg_signal, tryBind, sigName, h1, h2, h3]

/-- Claim C5 witness: with the SIGHUP binding failing, both other signals
are still attempted and bound and only the SIGHUP warning is logged. -/
theorem reg_signal_degrades_per_signal_witness :
    (reg_signal (fun s => s == Sig.SIGTERM || s == Sig.SIGINT)).attempted =
      [Sig.SIGTERM, Sig.SIGHUP, Sig.SIGINT] ∧
    Sig.SIGTERM ∈ (reg_signal (fun s => s == Sig.SIGTERM || s == Sig.SIGINT)).bound ∧
    ("Could not bind to " ++ sigName Sig.SIGHUP) ∈
      (reg_signal (fun s => s == Sig.SIGTERM || s == Sig.SIGINT)).warnings :=
  ⟨(reg_signal_degrades_per_signal _).1,
   ((reg_signal_degrades_per_signal _).2.1 _).mpr (by decide),
   ((reg_signal_degrades_per_signal _).2.2 _).mpr (by decide)⟩

/-- An environment in which every checked condition fails: no environment
variables, no docker socket, no executables. -/
def envBad : Env := ⟨[], false, []⟩

/-- An environment in which only the share variable is set, so the name
variable is the first failing condition. -/
def envShareOnly : Env := ⟨[(ENV_SHARE, "x")], false, []⟩

/-- An environment in which every checked condition passes. -/
def envAll : Env :=
  ⟨[(ENV_SHARE, "a"), (ENV_NAME, "b"), (ENV_REPO, "c")], true,
   ["socat", "gdbus"]⟩

/-- Claim C1 counterexample: in `envBad` the name variable, the docker
socket and the socat executable all fail in addition to the share
variable, yet only the share-variable failure is logged — the validator
returns at the first failing condition, so not every failing condition is
individually logged. -/
theorem check_environment_multiple_failures_single_log :
    (check_environment envBad).1 = false ∧
    (lookupVar envBad ENV_NAME).isNone = true ∧
    envBad.socketIsSocket = false ∧
    which envBad "socat" = false ∧
    (check_environment envBad).2 = ["Can't find SUPERVISOR_SHARE in env!"] ∧
    "Can't find SUPERVISOR_NAME in env!" ∉ (check_environment envBad).2 ∧
    "Can't find docker socket!" ∉ (check_environment envBad).2 := by decide

/-- Claim C1 (amended): the validator logs exactly one fatal message per
failing run — the one naming the first failing condition in the fixed
check order (share variable, name variable, repository variable, docker
socket, socat, gdbus) — and logs nothing when every condition passes;
subsequent failing conditions are neither evaluated nor logged. -/
theorem check_environment_first_failure_logging (env : Env) :
    ((check_environment env).1 = false → (check_environment env).2.length = 1) ∧
    ((check_environment env).1 = true → (check_environment env).2 = []) ∧
    ((lookupVar env ENV_SHARE).isNone = true →
      (check_environment env).2 = ["Can't find " ++ ENV_SHARE ++ " in env!"]) ∧
    ((lookupVar env ENV_SHARE).isNone = false →
      (lookupVar env ENV_NAME).isNone = true →
      (check_environment env).2 = ["Can't find " ++ ENV_NAME ++ " in env!"]) ∧
    ((lookupVar env ENV_SHARE).isNone = false →
      (lookupVar env ENV_NAME).isNone = false →
      (lookupVar env ENV_REPO).isNone = true →
      (check_environment env).2 = ["Can't find " ++ ENV_REPO ++ " in env!"]) ∧
    ((lookupVar env ENV_SHARE).isNone = false →
      (lookupVar env ENV_NAME).isNone = false →
      (lookupVar env ENV_REPO).isNone = false →
      env.socketIsSocket = false →
      (check_environment env).2 = ["Can't find docker socket!"]) ∧
    ((lookupVar env ENV_SHARE).isNone = false →
      (lookupVar env ENV_NAME).isNone = false →
      (lookupVar env ENV_REPO).isNone = false →
      env.socketIsSocket = true → which env "socat" = false →
      (check_environment env).2 = ["Can't find socat program!"]) ∧
    ((lookupVar env ENV_SHARE).isNone = false →
      (lookupVar env ENV_NAME).isNone = false →
      (lookupVar env ENV_REPO).isNone = false →
      env.socketIsSocket = true → which env "socat" = true →
      which env "gdbus" = false →
      (check_environment env).2 = ["Can't find gdbus program!"]) := by
  unfold check_environment
  split_ifs with h1 h2 h3 h4 h5 h6 <;> simp_all

/-- Claim C1 witness: with only the share variable set, the single fatal
log line names the name variable, the first failing condition. -/
theorem check_environment_first_failure_logging_witness :
    (check_environment envShareOnly).2 = ["Can't find " ++ ENV_NAME ++ " in env!"] :=
  (check_environment_first_failure_logging envShareOnly).2.2.2.1 (by decide)
    (by decide)

/-- Claim C2: the validator returns true exactly when all conditions pass —
the three required environment variables are set, the docker socket is a
socket, and both required executables resolve; if any condition fails it
returns false. -/
theorem check_environment_true_iff_all_pass (env : Env) :
    (check_environment env).1 = true ↔
      ((lookupVar env ENV_SHARE).isSome = true ∧
       (lookupVar env ENV_NAME).isSome = true ∧
       (lookupVar env ENV_REPO).isSome = true ∧
       env.socketIsSocket = true ∧
       which env "socat" = true ∧ which env "gdbus" = true) := by
  unfold check_environment
  split_ifs with h1 h2 h3 h4 h5 h6 <;> simp_all [Option.isSome_iff_ne_none]

/-- Claim C2 witness: the all-pass environment makes the validator return
true, and removing one condition class (the socket) makes it return
false. -/
theorem check_environment_true_iff_all_pass_witness :
    (check_environment envAll).1 = true ∧
    (check_environment { envAll with socketIsSocket := false }).1 = false :=
  ⟨(check_environment_true_iff_all_pass envAll).mpr (by decide),
   by
    have h := (check_environment_true_iff_all_pass
      { envAll with socketIsSocket := false }).not.mpr (by decide)
    cases hb : (check_environment { envAll with socketIsSocket := false }).1
    · rfl
    · exact absurd hb h⟩

/-- A filesystem whose only entry is the machine-identifier file,
containing a trailing newline. -/
def fsMachineId : FS := [(MACHINE_ID, Node.file "abc123\n")]

/-- Claim C4: host-identifier capture is optional and trimming — when the
filesystem bootstrap succeeds and the machine-identifier file is absent at
capture time, `initialize_coresys` returns normally with the host id
unset and emits no log beyond the bootstrap creation logs; when the file
is present containing `"abc123\n"`, the captured host id equals
`"abc123"`. -/
theorem machine_id_optional_and_trimmed (cfg : Config) (fs : FS) :
    ((initialize_system_data cfg fs).err = none →
      lookupFS (initialize_system_data cfg fs).fs MACHINE_ID = none →
      initialize_coresys cfg fs =
        .ok (coreSysAll cfg, (initialize_system_data cfg fs).fs,
             (initialize_system_data cfg fs).logs, bootEvents) ∧
      (coreSysAll cfg).machine_id = none) ∧
    ((initialize_system_data cfg fs).err = none →
      lookupFS (initialize_system_data cfg fs).fs MACHINE_ID =
        some (Node.file "abc123\n") →
      initialize_coresys cfg fs =
        .ok ({ coreSysAll cfg with machine_id := some "abc123" },
             (initialize_system_data cfg fs).fs,
             (initialize_system_data cfg fs).logs, bootEvents)) := by
  constructor
  · intro herr hlook
    refine ⟨?_, rfl⟩
    simp [initialize_coresys, herr, hlook]
  · intro herr hlook
    have hstrip : pyStrip "abc123\n" = "abc123" := rfl
    simp [initialize_coresys, herr, hlook, readText, hstrip]

/-- Claim C4 witness: bootstrapping from the empty filesystem leaves the
host id unset, and bootstrapping from a filesystem holding the
machine-identifier file with contents `"abc123\n"` captures `"abc123"`. -/
theorem machine_id_optional_and_trimmed_witness :
    (initialize_coresys cfgA [] =
      .ok (coreSysAll cfgA, (initialize_system_data cfgA []).fs,
           (initialize_system_data cfgA []).logs, bootEvents) ∧
     (coreSysAll cfgA).machine_id = none) ∧
    initialize_coresys cfgA fsMachineId =
      .ok ({ coreSysAll cfgA with machine_id := some "abc123" },
           (initialize_system_data cfgA fsMachineId).fs,
           (initialize_system_data cfgA fsMachineId).logs, bootEvents) :=
  ⟨(machine_id_optional_and_trimmed cfgA []).1 (by decide) (by decide),
   (machine_id_optional_and_trimmed cfgA fsMachineId).2 (by decide) (by decide)⟩

/-- Claim C7: after `initialize_coresys` returns successfully, every one of
the thirteen declared subsystem slots of the Shared Context is filled, and
in the event trace every subsystem constructor precedes both the
filesystem bootstrap and the host-identifier capture step. -/
theorem initialize_coresys_complete_and_ordered (cfg : Config) (fs : FS)
    (cs : CoreSys) (fs1 : FS) (logs : List String) (evs : List Event)
    (h : initialize_coresys cfg fs = .ok (cs, fs1, logs, evs)) :
    (cs.core.isSome = true ∧ cs.updater.isSome = true ∧ cs.api.isSome = true ∧
     cs.supervisor.isSome = true ∧ cs.homeassistant.isSome = true ∧
     cs.addons.isSome = true ∧ cs.snapshots.isSome = true ∧
     cs.host.isSome = true ∧ cs.tasks.isSome = true ∧
     cs.services.isSome = true ∧ cs.discovery.isSome = true ∧
     cs.dbus.isSome = true ∧ cs.hassos.isSome = true) ∧
    evs = bootEvents ∧
    (∀ n ∈ subsystemNames,
      evs.indexOf (Event.construct n) < evs.indexOf Event.bootstrapFS ∧
      evs.indexOf (Event.construct n) < evs.indexOf Event.captureHostId) := by
  simp only [initialize_coresys] at h
  split at h
  · cases h
  · split at h
    · split at h
      · cases h
      · simp only [Except.ok.injEq, Prod.mk.injEq] at h
        obtain ⟨hcs, -, -, hevs⟩ := h
        subst hcs
        subst hevs
        exact ⟨by simp [coreSysAll], rfl, by decide⟩
    · simp only [Except.ok.injEq, Prod.mk.injEq] at h
      obtain ⟨hcs, -, -, hevs⟩ := h
      subst hcs
      subst hevs
      exact ⟨by simp [coreSysAll], rfl, by decide⟩

/-- Claim C7 witness: the completeness and ordering facts applied to the
concrete successful bootstrap from the empty filesystem. -/
theorem initialize_coresys_complete_and_ordered_witness :
    (coreSysAll cfgA).addons.isSome = true ∧
    bootEvents.indexOf (Event.construct "hassos") <
      bootEvents.indexOf Event.bootstrapFS :=
  ⟨(initialize_coresys_complete_and_ordered cfgA [] (coreSysAll cfgA)
      (initialize_system_data cfgA []).fs (initialize_system_data cfgA []).logs
      bootEvents (by rfl)).1.2.2.2.2.1,
   ((initialize_coresys_complete_and_ordered cfgA [] (coreSysAll cfgA)
      (initialize_system_data cfgA []).fs (initialize_system_data cfgA []).logs
      bootEvents (by rfl)).2.2 "hassos" (by decide)).1⟩

end Bootstrap
